import Mathlib

/-
Verification development for the MudForge drawing API.

The repository documents a 2D immediate-mode canvas drawing engine (shapes,
images, gradients, canvas state save/restore, pixel access, batching) addressed
by widget identifiers.  The engine itself is external to the repository: the
markdown pages under src/drawing-api and the quick-reference sheet give only
its call signatures and behavioral contracts.  The definitions below are a
shallow embedding of that engine, modelled from the specification and from the
contracts stated in the documentation pages.  Machine floats of the real
engine are modelled by rational numbers; the asynchronous image loader is
modelled by an explicit cache state per URL.
-/

set_option autoImplicit false

namespace MudForge

/-- A pixel coordinate, origin top-left, x right, y down (README coordinate
system section). -/
structure Pt where
  x : Int
  y : Int
deriving DecidableEq, Repr

/-- An axis-aligned rectangle given by its top-left corner and extents. -/
structure Rect where
  x : Int
  y : Int
  w : Int
  h : Int
deriving DecidableEq, Repr

/-- A normalized RGBA color, each channel in 0..255. -/
structure Color where
  r : Nat
  g : Nat
  b : Nat
  a : Nat
deriving DecidableEq, Repr

/-- The compositing modes listed in the quick-reference sheet. -/
inductive BlendMode
  | normal
  | multiply
  | screen
  | overlay
  | darken
  | lighten
  | colorDodge
  | colorBurn
  | hardLight
  | softLight
  | difference
  | exclusion
deriving DecidableEq, Repr

/-- The three render hints of the quick-reference sheet. -/
inductive RenderHint
  | antialiasing
  | smoothing
  | pixelated
deriving DecidableEq, Repr

/-- The current set of render-hint flags. -/
structure RenderHints where
  antialiasing : Bool
  smoothing : Bool
  pixelated : Bool
deriving DecidableEq, Repr

/-- Modelled from the spec: the per-widget canvas state that saveCanvas and
restoreCanvas copy, consisting of clip region, blend mode and render hints. -/
structure CanvasState where
  clipRegion : Option Rect
  blendMode : BlendMode
  renderHints : RenderHints
deriving DecidableEq, Repr

/-- Gradient directions accepted by drawGradient. -/
inductive GradientDir
  | horizontal
  | vertical
  | diagonal
deriving DecidableEq, Repr

/-- A decoded image: dimensions plus pixel data. -/
structure Image where
  width : Nat
  height : Nat
  pix : Pt → Color

/-- Modelled from the spec: the lifecycle states of an image cache entry.
The repository only documents preloadImage and the loaded-before-drawn rule;
the cache itself is not implemented here. -/
inductive ImageState
  | notLoaded
  | loading
  | ready (img : Image)
  | failed

/-- The process-wide image cache, keyed by exact URL string. -/
def ImageCache : Type := String → ImageState

/-- Whether a cache entry holds a decoded image. -/
def ImageState.isReady : ImageState → Bool
  | .ready _ => true
  | _ => false

/-- The drawing and state-change operations that may be issued between
beginBatch and endBatch.  State changes are queued alongside draws, preserving
relative order (beginBatch notes section). -/
inductive DrawOp
  | rect (r : Rect) (fill stroke : Option Color)
  | polygon (pts : List Pt) (fill stroke : Option Color)
  | gradient (r : Rect) (c1 c2 : Color) (dir : GradientDir)
  | image (url : String) (dest : Rect)
  | imageAlpha (url : String) (dest : Rect) (alpha : Rat) (tint : Option Color)
  | imagePart (url : String) (dest : Rect) (src : Rect)
  | imageRotated (url : String) (dest : Rect) (angle : Rat) (center : Option Pt)
  | pixel (p : Pt) (c : Color)
  | clear
  | setClip (r : Rect)
  | resetClip
  | setBlend (m : BlendMode)
  | setHint (hint : RenderHint) (enabled : Bool)

/-- Modelled from the spec: the per-widget batch scheduler state machine with
states Idle and Batching, the latter holding the ordered queue. -/
inductive BatchState
  | idle
  | batching (queue : List DrawOp)

/-- A widget backing surface together with its current canvas state, its
save/restore stack and its batch state. -/
structure WidgetData where
  width : Int
  height : Int
  surface : Pt → Color
  state : CanvasState
  stack : List CanvasState
  batch : BatchState

/-- The error taxonomy of the drawing API. -/
inductive DrawErr
  | UnknownWidget
  | InvalidColorFormat
  | ImageLoadError
  | SourceOutOfBounds
  | InsufficientPoints
  | AlreadyBatching
  | NotBatching
deriving DecidableEq, Repr

/-! ### Color arithmetic -/

/-- Clamp a rational opacity into the range 0..1 (drawImageAlpha contract). -/
def clamp01 (q : Rat) : Rat := max 0 (min 1 q)

/-- Linear mix of two channels by an opacity factor. -/
def mixChan (al : Rat) (s d : Nat) : Nat :=
  (⌊al * (s : Rat) + (1 - al) * (d : Rat)⌋).toNat

/-- Source-over compositing of a source color onto a destination color with
the given effective source opacity. -/
def srcOver (al : Rat) (s d : Color) : Color :=
  ⟨mixChan al s.r d.r, mixChan al s.g d.g, mixChan al s.b d.b,
    (⌊(al + ((d.a : Rat) / 255) * (1 - al)) * 255⌋).toNat⟩

/-- Per-channel separable blend functions for the documented blend modes.
Nat subtraction truncates at zero, matching channel clamping. -/
def blendChannel : BlendMode → Nat → Nat → Nat
  | .normal, s, _ => s
  | .multiply, s, d => s * d / 255
  | .screen, s, d => 255 - (255 - s) * (255 - d) / 255
  | .overlay, s, d => if d < 128 then 2 * s * d / 255 else 255 - 2 * (255 - s) * (255 - d) / 255
  | .darken, s, d => min s d
  | .lighten, s, d => max s d
  | .colorDodge, s, d => if s = 255 then 255 else min 255 (d * 255 / (255 - s))
  | .colorBurn, s, d => if s = 0 then 0 else 255 - min 255 ((255 - d) * 255 / s)
  | .hardLight, s, d => if s < 128 then 2 * s * d / 255 else 255 - 2 * (255 - s) * (255 - d) / 255
  | .softLight, s, d => d + 2 * s * d * (255 - d) / (255 * 255) - d * (255 - d) / 255
  | .difference, s, d => max s d - min s d
  | .exclusion, s, d => s + d - 2 * s * d / 255

/-- Apply the current blend mode channel-wise, keeping the source alpha. -/
def blendApply (mode : BlendMode) (s d : Color) : Color :=
  ⟨blendChannel mode s.r d.r, blendChannel mode s.g d.g, blendChannel mode s.b d.b, s.a⟩

/-- Full compositing of a source color onto the surface under the current
blend mode, weighting by the source alpha channel. -/
def compositeFull (mode : BlendMode) (s d : Color) : Color :=
  srcOver ((s.a : Rat) / 255) (blendApply mode s d) d

/-- Linear interpolation between two colors, parameter 0 giving the first. -/
def lerpColor (c1 c2 : Color) (t : Rat) : Color :=
  ⟨mixChan t c2.r c1.r, mixChan t c2.g c1.g, mixChan t c2.b c1.b, mixChan t c2.a c1.a⟩

/-! ### Region predicates and surface painting -/

/-- Membership of a pixel in a rectangle. -/
def inRectB (r : Rect) (p : Pt) : Bool :=
  decide (r.x ≤ p.x) && decide (p.x < r.x + r.w) &&
  decide (r.y ≤ p.y) && decide (p.y < r.y + r.h)

/-- Whether the current clip region admits a pixel; no clip admits all. -/
def inClipB (st : CanvasState) (p : Pt) : Bool :=
  match st.clipRegion with
  | none => true
  | some r => inRectB r p

/-- Whether a pixel lies on the widget backing surface. -/
def inBoundsB (wd : WidgetData) (p : Pt) : Bool :=
  decide (0 ≤ p.x) && decide (p.x < wd.width) &&
  decide (0 ≤ p.y) && decide (p.y < wd.height)

/-- A pixel is drawable when on the surface and inside the clip region;
out-of-bounds writes are silently clipped. -/
def drawableAt (wd : WidgetData) (p : Pt) : Bool :=
  inBoundsB wd p && inClipB wd.state p

/-- Replace the backing surface of a widget. -/
def WidgetData.withSurface (wd : WidgetData) (f : Pt → Color) : WidgetData :=
  { wd with surface := f }

/-- Replace the current canvas state of a widget. -/
def WidgetData.withState (wd : WidgetData) (st : CanvasState) : WidgetData :=
  { wd with state := st }

/-- Paint every drawable pixel satisfying a condition with a computed color,
leaving all other pixels untouched. -/
def paintIf (wd : WidgetData) (cond : Pt → Bool) (colorAt : Pt → Color) : WidgetData :=
  wd.withSurface fun p => if drawableAt wd p && cond p then colorAt p else wd.surface p

/-- Optionally composite a solid color over a region; a missing color paints
nothing (shape ops accept optional fill and stroke). -/
def fillWith (wd : WidgetData) (cond : Pt → Bool) (c : Option Color) : WidgetData :=
  match c with
  | none => wd
  | some col => paintIf wd cond fun p => compositeFull wd.state.blendMode col (wd.surface p)

/-! ### Canvas state stack -/

/-- Push a copy of the current canvas state onto the widget stack. -/
def saveCanvas (wd : WidgetData) : WidgetData :=
  { wd with stack := wd.state :: wd.stack }

/-- Pop the most recent saved state and make it current; popping an empty
stack is the defined no-op chosen by the spec. -/
def restoreCanvas (wd : WidgetData) : WidgetData :=
  match wd.stack with
  | [] => wd
  | st :: rest => { wd with state := st, stack := rest }

/-- Set the clip rectangle of the current state only. -/
def setClipRegion (wd : WidgetData) (r : Rect) : WidgetData :=
  wd.withState { wd.state with clipRegion := some r }

/-- Remove the clip rectangle of the current state. -/
def resetClipRegion (wd : WidgetData) : WidgetData :=
  wd.withState { wd.state with clipRegion := none }

/-- Select the compositing mode for subsequent draws. -/
def setBlendMode (wd : WidgetData) (m : BlendMode) : WidgetData :=
  wd.withState { wd.state with blendMode := m }

/-- Toggle one render hint; smoothing and pixelated are mutually exclusive,
enabling one disables the other (spec policy choice). -/
def applyHint (hs : RenderHints) : RenderHint → Bool → RenderHints
  | .antialiasing, e => { hs with antialiasing := e }
  | .smoothing, e =>
      if e then { hs with smoothing := true, pixelated := false }
      else { hs with smoothing := false }
  | .pixelated, e =>
      if e then { hs with pixelated := true, smoothing := false }
      else { hs with pixelated := false }

/-- Apply a render-hint toggle to the current state. -/
def setRenderHint (wd : WidgetData) (hint : RenderHint) (e : Bool) : WidgetData :=
  wd.withState { wd.state with renderHints := applyHint wd.state.renderHints hint e }

/-! ### Polygons -/

/-- The consecutive edges of an open vertex path. -/
def pathEdges (verts : List Pt) : List (Pt × Pt) :=
  verts.zip verts.tail

/-- The edges of a polygon: consecutive vertices are connected in order and
the last point is automatically connected back to the first
(drawPolygon description and notes). -/
def polyEdges : List Pt → List (Pt × Pt)
  | [] => []
  | p :: rest => (p :: rest).zip (rest ++ [p])

/-- Whether a rightward ray from the pixel crosses an edge, the standard
even-odd ray-casting test written over integers. -/
def edgeCrosses (p : Pt) (e : Pt × Pt) : Bool :=
  if e.1.y ≤ p.y ∧ p.y < e.2.y then
    decide ((p.x - e.1.x) * (e.2.y - e.1.y) < (e.2.x - e.1.x) * (p.y - e.1.y))
  else if e.2.y ≤ p.y ∧ p.y < e.1.y then
    decide ((e.2.x - e.1.x) * (p.y - e.1.y) < (p.x - e.1.x) * (e.2.y - e.1.y))
  else
    false

/-- Even-odd interior test of a pixel against an edge list. -/
def insideEdges (edges : List (Pt × Pt)) (p : Pt) : Bool :=
  (edges.countP (edgeCrosses p)) % 2 == 1

/-- Whether a pixel lies on a closed segment. -/
def onSegment (p : Pt) (e : Pt × Pt) : Bool :=
  decide ((e.2.x - e.1.x) * (p.y - e.1.y) = (e.2.y - e.1.y) * (p.x - e.1.x)) &&
  decide (min e.1.x e.2.x ≤ p.x) && decide (p.x ≤ max e.1.x e.2.x) &&
  decide (min e.1.y e.2.y ≤ p.y) && decide (p.y ≤ max e.1.y e.2.y)

/-- Whether a pixel lies on the stroked outline given by an edge list. -/
def strokeHit (edges : List (Pt × Pt)) (p : Pt) : Bool :=
  edges.any (onSegment p)

/-- Rasterize an edge list: fill the even-odd interior, then stroke the
outline, each only when its color is present. -/
def renderEdges (wd : WidgetData) (edges : List (Pt × Pt)) (fill stroke : Option Color) :
    WidgetData :=
  fillWith (fillWith wd (insideEdges edges) fill) (strokeHit edges) stroke

/-- Draw a polygon: fewer than three points fail with InsufficientPoints,
otherwise the automatically closed edge list is rasterized. -/
def drawPolygon (wd : WidgetData) (pts : List Pt) (fill stroke : Option Color) :
    Except DrawErr WidgetData :=
  if pts.length < 3 then .error .InsufficientPoints
  else .ok (renderEdges wd (polyEdges pts) fill stroke)

/-- Modelled from the spec: drawing an explicitly closed loop of vertices,
meaning the open path of its consecutive edges is rasterized with no
automatic closing.  Used to compare drawPolygon against the closed loop
P plus its first point. -/
def renderClosedLoop (wd : WidgetData) (verts : List Pt) (fill stroke : Option Color) :
    WidgetData :=
  renderEdges wd (pathEdges verts) fill stroke

/-! ### Rectangles and gradients -/

/-- The one-pixel border of a rectangle. -/
def strokeRectB (r : Rect) (p : Pt) : Bool :=
  inRectB r p &&
    (decide (p.x = r.x) || decide (p.x = r.x + r.w - 1) ||
     decide (p.y = r.y) || decide (p.y = r.y + r.h - 1))

/-- Draw a rectangle with optional fill and stroke colors. -/
def drawRect (wd : WidgetData) (r : Rect) (fill stroke : Option Color) : WidgetData :=
  fillWith (fillWith wd (inRectB r) fill) (strokeRectB r) stroke

/-- The normalized gradient parameter of a pixel.  Horizontal runs left to
right, vertical top to bottom.  Diagonal runs from the top-left corner at a
fixed 45-degree angle (drawGradient notes section), so the parameter depends
on the offsets only through their sum. -/
def gradParam (dir : GradientDir) (r : Rect) (p : Pt) : Rat :=
  match dir with
  | .horizontal => ((p.x - r.x : Int) : Rat) / ((r.w : Int) : Rat)
  | .vertical => ((p.y - r.y : Int) : Rat) / ((r.h : Int) : Rat)
  | .diagonal => ((p.x - r.x + (p.y - r.y) : Int) : Rat) / ((r.w + r.h : Int) : Rat)

/-- Modelled from the spec: the alternative corner-to-corner reading of the
diagonal direction, whose axis follows the top-left-to-bottom-right corner
diagonal of the rectangle.  Stated only for comparison against the
fixed-45-degree axis actually documented. -/
def cornerDiagParam (r : Rect) (p : Pt) : Rat :=
  (((p.x - r.x) * r.w + (p.y - r.y) * r.h : Int) : Rat) /
    (((r.w * r.w + r.h * r.h) : Int) : Rat)

/-- Draw a linear gradient over a rectangle in the given direction. -/
def drawGradient (wd : WidgetData) (r : Rect) (c1 c2 : Color) (dir : GradientDir) :
    WidgetData :=
  paintIf wd (inRectB r) fun p =>
    compositeFull wd.state.blendMode (lerpColor c1 c2 (clamp01 (gradParam dir r p)))
      (wd.surface p)

/-! ### Images -/

/-- Nearest sampling of an image stretched onto a destination rectangle. -/
def destSample (img : Image) (dest : Rect) (p : Pt) : Color :=
  img.pix ⟨(p.x - dest.x) * (img.width : Int) / dest.w,
           (p.y - dest.y) * (img.height : Int) / dest.h⟩

/-- Optional multiply tint of a sampled pixel (drawImageAlpha notes). -/
def applyTint : Option Color → Color → Color
  | none, c => c
  | some t, c => ⟨c.r * t.r / 255, c.g * t.g / 255, c.b * t.b / 255, c.a⟩

/-- Draw an image onto a destination rectangle.  A URL whose image is not
in the Ready state is accepted and renders nothing, never blocking the
caller (silent skip per the image cache contract). -/
def drawImage (cache : ImageCache) (wd : WidgetData) (url : String) (dest : Rect) :
    Except DrawErr WidgetData :=
  match cache url with
  | .ready img => .ok (paintIf wd (inRectB dest) fun p =>
      compositeFull wd.state.blendMode (destSample img dest p) (wd.surface p))
  | _ => .ok wd

/-- Draw an image with an overall opacity in 0..1 (clamped) and an optional
multiply tint.  Unready images silently skip. -/
def drawImageAlpha (cache : ImageCache) (wd : WidgetData) (url : String) (dest : Rect)
    (alpha : Rat) (tint : Option Color) : Except DrawErr WidgetData :=
  match cache url with
  | .ready img => .ok (paintIf wd (inRectB dest) fun p =>
      srcOver (clamp01 alpha * (((applyTint tint (destSample img dest p)).a : Rat) / 255))
        (blendApply wd.state.blendMode (applyTint tint (destSample img dest p)) (wd.surface p))
        (wd.surface p))
  | _ => .ok wd

/-- Whether a source rectangle lies entirely within the bounds of an image. -/
def srcWithin (img : Image) (src : Rect) : Bool :=
  decide (0 ≤ src.x) && decide (0 ≤ src.y) &&
  decide (src.x + src.w ≤ (img.width : Int)) && decide (src.y + src.h ≤ (img.height : Int))

/-- Sampling of a source sub-rectangle stretched onto a destination. -/
def partSample (img : Image) (dest src : Rect) (p : Pt) : Color :=
  img.pix ⟨src.x + (p.x - dest.x) * src.w / dest.w,
           src.y + (p.y - dest.y) * src.h / dest.h⟩

/-- Blit a source rectangle of an image to a destination rectangle.  The
source rectangle must lie within the image bounds or the call fails with
SourceOutOfBounds; unready images silently skip. -/
def drawImagePart (cache : ImageCache) (wd : WidgetData) (url : String) (dest src : Rect) :
    Except DrawErr WidgetData :=
  match cache url with
  | .ready img =>
      if srcWithin img src then
        .ok (paintIf wd (inRectB dest) fun p =>
          compositeFull wd.state.blendMode (partSample img dest src p) (wd.surface p))
      else
        .error .SourceOutOfBounds
  | _ => .ok wd

/-- Rational series approximation of cosine, standing in for the machine
floating-point trigonometry of the real engine. -/
def cosQ (x : Rat) : Rat := 1 - x ^ 2 / 2 + x ^ 4 / 24 - x ^ 6 / 720

/-- Rational series approximation of sine. -/
def sinQ (x : Rat) : Rat := x - x ^ 3 / 6 + x ^ 5 / 120

/-- The rotation center: an explicit center is relative to the destination
top-left, the default is the geometric center. -/
def rotCenter (dest : Rect) : Option Pt → Pt
  | some c => ⟨dest.x + c.x, dest.y + c.y⟩
  | none => ⟨dest.x + dest.w / 2, dest.y + dest.h / 2⟩

/-- Rotate a destination pixel back by the angle about the center, to find
the un-rotated position it samples from.  Positive angles are clockwise. -/
def rotateBack (ang : Rat) (c : Pt) (p : Pt) : Pt :=
  ⟨c.x + ⌊((p.x - c.x : Int) : Rat) * cosQ ang + ((p.y - c.y : Int) : Rat) * sinQ ang⌋,
   c.y + ⌊((p.y - c.y : Int) : Rat) * cosQ ang - ((p.x - c.x : Int) : Rat) * sinQ ang⌋⟩

/-- Draw an image rotated about a center point.  Unready images silently
skip. -/
def drawImageRotated (cache : ImageCache) (wd : WidgetData) (url : String) (dest : Rect)
    (ang : Rat) (center : Option Pt) : Except DrawErr WidgetData :=
  match cache url with
  | .ready img => .ok (paintIf wd
      (fun p => inRectB dest (rotateBack ang (rotCenter dest center) p)) fun p =>
        compositeFull wd.state.blendMode
          (destSample img dest (rotateBack ang (rotCenter dest center) p)) (wd.surface p))
  | _ => .ok wd

/-! ### Pixel operations -/

/-- Read one pixel; out-of-bounds reads return transparent black. -/
def readPixel (wd : WidgetData) (p : Pt) : Color :=
  if inBoundsB wd p then wd.surface p else ⟨0, 0, 0, 0⟩

/-- Write one pixel; out-of-bounds writes are silently clipped. -/
def setPixel (wd : WidgetData) (p : Pt) (c : Color) : WidgetData :=
  paintIf wd (fun q => decide (q = p)) fun _ => c

/-- Clear the whole backing surface to transparent black. -/
def clearWidget (wd : WidgetData) : WidgetData :=
  wd.withSurface fun _ => ⟨0, 0, 0, 0⟩

/-! ### Batch scheduler -/

/-- Execute one queued operation against a widget, returning the documented
error when the operation is invalid. -/
def applyOpE (cache : ImageCache) (wd : WidgetData) : DrawOp → Except DrawErr WidgetData
  | .rect r fill stroke => .ok (drawRect wd r fill stroke)
  | .polygon pts fill stroke => drawPolygon wd pts fill stroke
  | .gradient r c1 c2 dir => .ok (drawGradient wd r c1 c2 dir)
  | .image url dest => drawImage cache wd url dest
  | .imageAlpha url dest alpha tint => drawImageAlpha cache wd url dest alpha tint
  | .imagePart url dest src => drawImagePart cache wd url dest src
  | .imageRotated url dest ang center => drawImageRotated cache wd url dest ang center
  | .pixel p c => .ok (setPixel wd p c)
  | .clear => .ok (clearWidget wd)
  | .setClip r => .ok (setClipRegion wd r)
  | .resetClip => .ok (resetClipRegion wd)
  | .setBlend m => .ok (setBlendMode wd m)
  | .setHint hint e => .ok (setRenderHint wd hint e)

/-- Execute one operation, leaving the widget unchanged when the operation
fails (a raising call never modifies the surface). -/
def applyOp (cache : ImageCache) (wd : WidgetData) (op : DrawOp) : WidgetData :=
  match applyOpE cache wd op with
  | .ok wd2 => wd2
  | .error _ => wd

/-- Route one issued operation: while Batching it is appended to the queue
instead of rendering, while Idle it renders immediately. -/
def dispatch (cache : ImageCache) (wd : WidgetData) (op : DrawOp) : WidgetData :=
  match wd.batch with
  | .batching q => { wd with batch := .batching (q ++ [op]) }
  | .idle => applyOp cache wd op

/-- Start batching: Idle to Batching with an empty queue; a second call while
already Batching fails with AlreadyBatching. -/
def beginBatch (wd : WidgetData) : Except DrawErr WidgetData :=
  match wd.batch with
  | .batching _ => .error .AlreadyBatching
  | .idle => .ok { wd with batch := .batching [] }

/-- End batching: Batching to Idle, executing the queued operations against
the backing surface in original call order, then clearing the queue; while
Idle the call fails with NotBatching. -/
def endBatch (cache : ImageCache) (wd : WidgetData) : Except DrawErr WidgetData :=
  match wd.batch with
  | .idle => .error .NotBatching
  | .batching q => .ok (q.foldl (applyOp cache) { wd with batch := .idle })

/-- The widget observed by a caller after a call: the new widget on success,
the untouched widget when the call raised. -/
def runOr (wd : WidgetData) : Except DrawErr WidgetData → WidgetData
  | .ok wd2 => wd2
  | .error _ => wd

/-! ### Engine state and the widget-free canvas queries -/

/-- A width and height pair as returned by getCanvasSize. -/
structure CanvasSize where
  width : Nat
  height : Nat
deriving DecidableEq, Repr

/-- The engine: the single implicit canvas dimensions, the widget registry
owned by the external UI layer, and the image cache. -/
structure EngineState where
  canvasWidth : Nat
  canvasHeight : Nat
  widgets : String → Option WidgetData
  cache : ImageCache

/-- Report the width of the single implicit canvas; takes no widget
identifier and cannot fail (quick-reference signature). -/
def getCanvasWidth (s : EngineState) : Nat := s.canvasWidth

/-- Report the height of the single implicit canvas. -/
def getCanvasHeight (s : EngineState) : Nat := s.canvasHeight

/-- Report both dimensions of the single implicit canvas. -/
def getCanvasSize (s : EngineState) : CanvasSize := ⟨s.canvasWidth, s.canvasHeight⟩

/-- Read a pixel of a registered widget; an identifier the registry cannot
resolve fails with UnknownWidget, like every widget-addressed operation. -/
def getPixel (s : EngineState) (wid : String) (p : Pt) : Except DrawErr Color :=
  match s.widgets wid with
  | none => .error .UnknownWidget
  | some wd => .ok (readPixel wd p)

/-! ### Concrete data used by the closed witness statements -/

/-- A constant test surface. -/
def surf0 : Pt → Color := fun _ => ⟨10, 20, 30, 255⟩

/-- A default canvas state. -/
def st0 : CanvasState := ⟨none, .normal, ⟨true, true, false⟩⟩

/-- A small idle widget. -/
def wd0 : WidgetData := ⟨8, 8, surf0, st0, [], .idle⟩

/-- A widget already in the Batching state with an empty queue. -/
def wdB0 : WidgetData := ⟨8, 8, surf0, st0, [], .batching []⟩

/-- A concrete 8 by 8 decoded image. -/
def img0 : Image := ⟨8, 8, fun _ => ⟨200, 100, 50, 255⟩⟩

/-- A cache where every URL is still loading. -/
def cacheL : ImageCache := fun _ => .loading

/-- A cache where every URL resolves to the test image. -/
def cacheR : ImageCache := fun _ => .ready img0

/-- A test URL. -/
def url0 : String := "img"

/-- A test destination rectangle. -/
def r0 : Rect := ⟨0, 0, 4, 4⟩

/-- A test triangle. -/
def tri0 : List Pt := [⟨0, 0⟩, ⟨4, 0⟩, ⟨0, 4⟩]

/-- An engine with an empty widget registry. -/
def s0 : EngineState := ⟨640, 480, fun _ => none, cacheL⟩

/-! ### Frame lemmas: painting and state changes touch neither the batch
state nor the save stack -/

@[simp] theorem withSurface_batch (wd : WidgetData) (f : Pt → Color) :
    (wd.withSurface f).batch = wd.batch := rfl

@[simp] theorem withSurface_stack (wd : WidgetData) (f : Pt → Color) :
    (wd.withSurface f).stack = wd.stack := rfl

@[simp] theorem withState_batch (wd : WidgetData) (st : CanvasState) :
    (wd.withState st).batch = wd.batch := rfl

@[simp] theorem withState_stack (wd : WidgetData) (st : CanvasState) :
    (wd.withState st).stack = wd.stack := rfl

@[simp] theorem paintIf_batch (wd : WidgetData) (c : Pt → Bool) (f : Pt → Color) :
    (paintIf wd c f).batch = wd.batch := rfl

@[simp] theorem paintIf_stack (wd : WidgetData) (c : Pt → Bool) (f : Pt → Color) :
    (paintIf wd c f).stack = wd.stack := rfl

@[simp] theorem fillWith_batch (wd : WidgetData) (c : Pt → Bool) (oc : Option Color) :
    (fillWith wd c oc).batch = wd.batch := by
  cases oc <;> rfl

@[simp] theorem fillWith_stack (wd : WidgetData) (c : Pt → Bool) (oc : Option Color) :
    (fillWith wd c oc).stack = wd.stack := by
  cases oc <;> rfl

theorem applyOpE_frame (cache : ImageCache) (wd : WidgetData) (op : DrawOp)
    (wd2 : WidgetData) (h : applyOpE cache wd op = .ok wd2) :
    wd2.batch = wd.batch ∧ wd2.stack = wd.stack := by
  cases op with
  | rect r fill stroke =>
      simp only [applyOpE, Except.ok.injEq] at h
      subst h
      simp [drawRect]
  | polygon pts fill stroke =>
      simp only [applyOpE, drawPolygon] at h
      split at h
      · simp at h
      · simp only [Except.ok.injEq] at h
        subst h
        simp [renderEdges]
  | gradient r c1 c2 dir =>
      simp only [applyOpE, Except.ok.injEq] at h
      subst h
      simp [drawGradient]
  | image url dest =>
      simp only [applyOpE, drawImage] at h
      cases hc : cache url <;> rw [hc] at h <;> simp only [Except.ok.injEq] at h <;>
        subst h <;> simp
  | imageAlpha url dest alpha tint =>
      simp only [applyOpE, drawImageAlpha] at h
      cases hc : cache url <;> rw [hc] at h <;> simp only [Except.ok.injEq] at h <;>
        subst h <;> simp
  | imagePart url dest src =>
      simp only [applyOpE, drawImagePart] at h
      cases hc : cache url with
      | ready img =>
          rw [hc] at h
          simp only [] at h
          split at h
          · simp only [Except.ok.injEq] at h
            subst h
            simp
          · simp at h
      | notLoaded =>
          rw [hc] at h
          simp only [Except.ok.injEq] at h
          subst h
          simp
      | loading =>
          rw [hc] at h
          simp only [Except.ok.injEq] at h
          subst h
          simp
      | failed =>
          rw [hc] at h
          simp only [Except.ok.injEq] at h
          subst h
          simp
  | imageRotated url dest ang center =>
      simp only [applyOpE, drawImageRotated] at h
      cases hc : cache url <;> rw [hc] at h <;> simp only [Except.ok.injEq] at h <;>
        subst h <;> simp
  | pixel p c =>
      simp only [applyOpE, Except.ok.injEq] at h
      subst h
      simp [setPixel]
  | clear =>
      simp only [applyOpE, Except.ok.injEq] at h
      subst h
      simp [clearWidget]
  | setClip r =>
      simp only [applyOpE, Except.ok.injEq] at h
      subst h
      simp [setClipRegion]
  | resetClip =>
      simp only [applyOpE, Except.ok.injEq] at h
      subst h
      simp [resetClipRegion]
  | setBlend m =>
      simp only [applyOpE, Except.ok.injEq] at h
      subst h
      simp [setBlendMode]
  | setHint hint e =>
      simp only [applyOpE, Except.ok.injEq] at h
      subst h
      simp [setRenderHint]

theorem applyOp_batch (cache : ImageCache) (wd : WidgetData) (op : DrawOp) :
    (applyOp cache wd op).batch = wd.batch := by
  unfold applyOp
  cases he : applyOpE cache wd op with
  | ok wd2 => exact (applyOpE_frame cache wd op wd2 he).1
  | error e => rfl

theorem applyOp_stack (cache : ImageCache) (wd : WidgetData) (op : DrawOp) :
    (applyOp cache wd op).stack = wd.stack := by
  unfold applyOp
  cases he : applyOpE cache wd op with
  | ok wd2 => exact (applyOpE_frame cache wd op wd2 he).2
  | error e => rfl

/-! ### Batch scheduler fold lemmas -/

/-- Replacing the batch field by its own value is the identity. -/
theorem batch_eta (wd : WidgetData) (b : BatchState) (h : wd.batch = b) :
    { wd with batch := b } = wd := by
  obtain ⟨w, ht, surf, st, stk, b1⟩ := wd
  simp only at h
  rw [h]

theorem foldl_dispatch_batching (cache : ImageCache) :
    ∀ (ops : List DrawOp) (wd : WidgetData) (q : List DrawOp),
      wd.batch = .batching q →
      ops.foldl (dispatch cache) wd = { wd with batch := .batching (q ++ ops) } := by
  intro ops
  induction ops with
  | nil =>
      intro wd q h
      simp only [List.foldl_nil, List.append_nil]
      exact (batch_eta wd (.batching q) h).symm
  | cons op ops ih =>
      intro wd q h
      rw [List.foldl_cons]
      have hd : dispatch cache wd op = { wd with batch := .batching (q ++ [op]) } := by
        unfold dispatch
        rw [h]
      rw [hd, ih _ (q ++ [op]) rfl]
      rw [List.append_assoc]
      rfl

theorem foldl_dispatch_idle (cache : ImageCache) :
    ∀ (ops : List DrawOp) (wd : WidgetData), wd.batch = .idle →
      ops.foldl (dispatch cache) wd = ops.foldl (applyOp cache) wd := by
  intro ops
  induction ops with
  | nil => intro wd h; rfl
  | cons op ops ih =>
      intro wd h
      rw [List.foldl_cons, List.foldl_cons]
      have hd : dispatch cache wd op = applyOp cache wd op := by
        unfold dispatch
        rw [h]
      rw [hd]
      exact ih _ (by rw [applyOp_batch]; exact h)

theorem foldl_applyOp_stack (cache : ImageCache) :
    ∀ (ops : List DrawOp) (wd : WidgetData),
      (ops.foldl (applyOp cache) wd).stack = wd.stack := by
  intro ops
  induction ops with
  | nil => intro wd; rfl
  | cons op ops ih =>
      intro wd
      rw [List.foldl_cons, ih, applyOp_stack]

/-- A widget whose stack is known to be a cons restores to its head. -/
theorem restore_state_of_stack (wd : WidgetData) (st : CanvasState) (rest : List CanvasState)
    (h : wd.stack = st :: rest) : (restoreCanvas wd).state = st := by
  unfold restoreCanvas
  rw [h]

/-! ### Pixel arithmetic lemmas -/

theorem clamp01_zero : clamp01 0 = 0 := by
  norm_num [clamp01]

theorem mixChan_zero (s d : Nat) : mixChan 0 s d = d := by
  unfold mixChan
  norm_num

/-- Compositing with effective source opacity zero leaves the destination
pixel untouched, alpha channel included. -/
theorem srcOver_zero (s d : Color) : srcOver 0 s d = d := by
  obtain ⟨r, g, b, a⟩ := d
  unfold srcOver
  simp only [mixChan_zero]
  have ha : ((0 : Rat) + ((a : Rat) / 255) * (1 - 0)) * 255 = (a : Rat) := by
    field_simp
  rw [ha]
  norm_num

/-- Painting with a color function that agrees with the current surface is
the identity on the widget. -/
theorem paintIf_eq_self (wd : WidgetData) (cond : Pt → Bool) (f : Pt → Color)
    (hf : ∀ p, f p = wd.surface p) : paintIf wd cond f = wd := by
  obtain ⟨w, ht, surf, st, stk, b⟩ := wd
  unfold paintIf WidgetData.withSurface
  simp only [WidgetData.mk.injEq, and_true, true_and]
  funext p
  cases hc : drawableAt ⟨w, ht, surf, st, stk, b⟩ p && cond p <;> simp [hf p]

/-! ### Edge list lemmas -/

theorem zip_append_single {α : Type} :
    ∀ (l2 l1 : List α) (x : α), l2.length ≤ l1.length →
      (l1 ++ [x]).zip l2 = l1.zip l2 := by
  intro l2
  induction l2 with
  | nil => intro l1 x h; simp
  | cons b bs ih =>
      intro l1 x h
      cases l1 with
      | nil => simp at h
      | cons a as =>
          simp only [List.cons_append, List.zip_cons_cons, List.cons.injEq, true_and]
          exact ih as x (by simpa using h)

/-- The automatically closed edge list of a polygon equals the open-path
edge list of the explicitly closed loop. -/
theorem polyEdges_eq_pathEdges (p : Pt) (rest : List Pt) :
    polyEdges (p :: rest) = pathEdges ((p :: rest) ++ [p]) := by
  unfold polyEdges pathEdges
  simp only [List.cons_append, List.tail_cons]
  exact (zip_append_single (rest ++ [p]) (p :: rest) p (by simp)).symm

/-! ### Claim theorems -/

/-- C1: for an Idle widget and any finite sequence of draw operations,
beginBatch, then the operations, then endBatch succeeds and leaves the
backing surface pixel-for-pixel equal to executing the operations directly
without batching; endBatch flushes the queue in original call order (it
left-folds execution over the queued list). -/
theorem batch_flush_eq_direct (cache : ImageCache) (wd : WidgetData)
    (ops : List DrawOp) (h : wd.batch = .idle) :
    ∃ wd1 wd2, beginBatch wd = .ok wd1 ∧
      endBatch cache (ops.foldl (dispatch cache) wd1) = .ok wd2 ∧
      wd2.surface = (ops.foldl (dispatch cache) wd).surface := by
  refine ⟨{ wd with batch := .batching [] }, ops.foldl (applyOp cache) wd, ?_, ?_, ?_⟩
  · unfold beginBatch
    rw [h]
  · rw [foldl_dispatch_batching cache ops { wd with batch := .batching [] } [] rfl]
    simp only [List.nil_append]
    have he : ({ wd with batch := BatchState.idle } : WidgetData) = wd :=
      batch_eta wd .idle h
    calc endBatch cache { wd with batch := BatchState.batching ops }
        = .ok (ops.foldl (applyOp cache) { wd with batch := BatchState.idle }) := rfl
      _ = .ok (ops.foldl (applyOp cache) wd) := by rw [he]
  · rw [foldl_dispatch_idle cache ops wd h]

/-- Witness for C1: a concrete idle widget with two queued operations. -/
theorem batch_flush_eq_direct_w :
    ∃ wd1 wd2, beginBatch wd0 = .ok wd1 ∧
      endBatch cacheL ([DrawOp.clear, DrawOp.resetClip].foldl (dispatch cacheL) wd1) = .ok wd2 ∧
      wd2.surface = ([DrawOp.clear, DrawOp.resetClip].foldl (dispatch cacheL) wd0).surface :=
  batch_flush_eq_direct cacheL wd0 [DrawOp.clear, DrawOp.resetClip] rfl

/-- C2: every call of the drawImage family on a URL whose image is not in
the Ready cache state is accepted, returns success rather than raising, and
leaves the widget, in particular its backing surface, unchanged (silent
skip-draw; the operations are total functions, so no call can suspend the
caller). -/
theorem drawImage_family_unready_skip (cache : ImageCache) (wd : WidgetData) (url : String)
    (dest src : Rect) (alpha : Rat) (tint : Option Color) (ang : Rat) (center : Option Pt)
    (h : (cache url).isReady = false) :
    drawImage cache wd url dest = .ok wd ∧
    drawImageAlpha cache wd url dest alpha tint = .ok wd ∧
    drawImagePart cache wd url dest src = .ok wd ∧
    drawImageRotated cache wd url dest ang center = .ok wd := by
  cases hc : cache url with
  | ready img =>
      rw [hc] at h
      simp [ImageState.isReady] at h
  | notLoaded =>
      exact ⟨by unfold drawImage; rw [hc], by unfold drawImageAlpha; rw [hc],
        by unfold drawImagePart; rw [hc], by unfold drawImageRotated; rw [hc]⟩
  | loading =>
      exact ⟨by unfold drawImage; rw [hc], by unfold drawImageAlpha; rw [hc],
        by unfold drawImagePart; rw [hc], by unfold drawImageRotated; rw [hc]⟩
  | failed =>
      exact ⟨by unfold drawImage; rw [hc], by unfold drawImageAlpha; rw [hc],
        by unfold drawImagePart; rw [hc], by unfold drawImageRotated; rw [hc]⟩

/-- Witness for C2: a cache whose entries are all still Loading. -/
theorem drawImage_family_unready_skip_w :
    drawImage cacheL wd0 url0 r0 = .ok wd0 ∧
    drawImageAlpha cacheL wd0 url0 r0 (1 / 2) none = .ok wd0 ∧
    drawImagePart cacheL wd0 url0 r0 r0 = .ok wd0 ∧
    drawImageRotated cacheL wd0 url0 r0 1 none = .ok wd0 :=
  drawImage_family_unready_skip cacheL wd0 url0 r0 r0 (1 / 2) none 1 none rfl

/-- C3: a second beginBatch on a widget already in the Batching state fails
with AlreadyBatching, and the failed call leaves the widget, hence its
queue and surface, unchanged. -/
theorem beginBatch_nested_already_batching (wd : WidgetData) (q : List DrawOp)
    (h : wd.batch = .batching q) :
    beginBatch wd = .error .AlreadyBatching ∧ runOr wd (beginBatch wd) = wd := by
  have hb : beginBatch wd = .error .AlreadyBatching := by
    unfold beginBatch
    rw [h]
  exact ⟨hb, by rw [hb]; rfl⟩

/-- Witness for C3: a widget already batching with an empty queue. -/
theorem beginBatch_nested_already_batching_w :
    beginBatch wdB0 = .error .AlreadyBatching ∧ runOr wdB0 (beginBatch wdB0) = wdB0 :=
  beginBatch_nested_already_batching wdB0 [] rfl

/-- C4: saveCanvas, setClipRegion, restoreCanvas restores the pre-save clip
region exactly; more generally, since saveCanvas pushes a copy of the state
and no queued operation touches the stack, any sequence of draw or
state-change operations between save and restore leaves the restored state
equal to the pre-save state. -/
theorem saveCanvas_restoreCanvas_clip (cache : ImageCache) (wd : WidgetData) (r : Rect)
    (ops : List DrawOp) :
    (restoreCanvas (setClipRegion (saveCanvas wd) r)).state.clipRegion =
      wd.state.clipRegion ∧
    (restoreCanvas (ops.foldl (applyOp cache) (saveCanvas wd))).state = wd.state := by
  constructor
  · rfl
  · exact restore_state_of_stack _ wd.state wd.stack (by rw [foldl_applyOp_stack]; rfl)

/-- C5: for at least three points, drawPolygon renders exactly the
explicitly closed loop obtained by appending the first point: the polygon
is automatically closed before filling and stroking. -/
theorem drawPolygon_auto_close (wd : WidgetData) (pts : List Pt)
    (fill stroke : Option Color) (h : 3 ≤ pts.length) :
    drawPolygon wd pts fill stroke =
      .ok (renderClosedLoop wd (pts ++ pts.take 1) fill stroke) := by
  cases pts with
  | nil => simp at h
  | cons p rest =>
      unfold drawPolygon renderClosedLoop
      rw [if_neg (by omega), polyEdges_eq_pathEdges p rest]
      rfl

/-- Witness for C5: a concrete triangle. -/
theorem drawPolygon_auto_close_w :
    drawPolygon wd0 tri0 (some ⟨255, 0, 0, 255⟩) none =
      .ok (renderClosedLoop wd0 (tri0 ++ tri0.take 1) (some ⟨255, 0, 0, 255⟩) none) :=
  drawPolygon_auto_close wd0 tri0 (some ⟨255, 0, 0, 255⟩) none (by decide)

/-- C6: drawPolygon on fewer than three points fails with
InsufficientPoints. -/
theorem drawPolygon_too_few_points (wd : WidgetData) (pts : List Pt)
    (fill stroke : Option Color) (h : pts.length < 3) :
    drawPolygon wd pts fill stroke = .error .InsufficientPoints := by
  unfold drawPolygon
  rw [if_pos h]

/-- Witness for C6: a two-point list. -/
theorem drawPolygon_too_few_points_w :
    drawPolygon wd0 [⟨0, 0⟩, ⟨1, 1⟩] none none = .error .InsufficientPoints :=
  drawPolygon_too_few_points wd0 [⟨0, 0⟩, ⟨1, 1⟩] none none (by decide)

/-- C7: for a Ready image, drawImagePart fails with SourceOutOfBounds
exactly when the source rectangle does not lie within the image bounds; in
particular it fails whenever srcX plus srcWidth exceeds the image width,
and an in-bounds source rectangle never raises that error. -/
theorem drawImagePart_source_bounds (cache : ImageCache) (wd : WidgetData) (url : String)
    (img : Image) (dest src : Rect) (h : cache url = .ready img) :
    (srcWithin img src = false →
      drawImagePart cache wd url dest src = .error .SourceOutOfBounds) ∧
    ((img.width : Int) < src.x + src.w →
      drawImagePart cache wd url dest src = .error .SourceOutOfBounds) ∧
    (srcWithin img src = true →
      drawImagePart cache wd url dest src ≠ .error .SourceOutOfBounds) := by
  have hw : drawImagePart cache wd url dest src =
      if srcWithin img src then
        .ok (paintIf wd (inRectB dest) fun p =>
          compositeFull wd.state.blendMode (partSample img dest src p) (wd.surface p))
      else .error .SourceOutOfBounds := by
    unfold drawImagePart
    rw [h]
  refine ⟨?_, ?_, ?_⟩
  · intro hf
    rw [hw, if_neg (by simp [hf])]
  · intro hlt
    have hf : srcWithin img src = false := by
      have h3 : decide (src.x + src.w ≤ (img.width : Int)) = false :=
        decide_eq_false (not_le.mpr hlt)
      simp [srcWithin, h3]
    rw [hw, if_neg (by simp [hf])]
  · intro ht
    rw [hw, if_pos ht]
    simp

/-- Witness for C7: an 8 by 8 image, one overflowing and one in-bounds
source rectangle. -/
theorem drawImagePart_source_bounds_w :
    drawImagePart cacheR wd0 url0 r0 ⟨4, 0, 8, 8⟩ = .error .SourceOutOfBounds ∧
    drawImagePart cacheR wd0 url0 r0 ⟨0, 0, 8, 8⟩ ≠ .error .SourceOutOfBounds :=
  ⟨(drawImagePart_source_bounds cacheR wd0 url0 img0 r0 ⟨4, 0, 8, 8⟩ rfl).2.1 (by decide),
   (drawImagePart_source_bounds cacheR wd0 url0 img0 r0 ⟨0, 0, 8, 8⟩ rfl).2.2 (by decide)⟩

/-- C8: drawImageAlpha with alpha zero on a loaded image succeeds and is a
visual no-op: the widget is returned unchanged and reading any pixel
afterwards yields exactly the pre-draw pixel value. -/
theorem drawImageAlpha_alpha_zero_noop (cache : ImageCache) (wd : WidgetData) (url : String)
    (img : Image) (x y : Int) (h : cache url = .ready img) :
    drawImageAlpha cache wd url ⟨x, y, 100, 100⟩ 0 none = .ok wd ∧
    ∀ p : Pt, (drawImageAlpha cache wd url ⟨x, y, 100, 100⟩ 0 none).map
        (fun wd2 => readPixel wd2 p) = .ok (readPixel wd p) := by
  have key : drawImageAlpha cache wd url ⟨x, y, 100, 100⟩ 0 none = .ok wd := by
    unfold drawImageAlpha
    rw [h]
    exact congrArg Except.ok (paintIf_eq_self wd _ _ fun p => by
      rw [clamp01_zero, zero_mul, srcOver_zero])
  exact ⟨key, fun p => by rw [key]; rfl⟩

/-- Witness for C8: the concrete Ready cache and test widget. -/
theorem drawImageAlpha_alpha_zero_noop_w :
    drawImageAlpha cacheR wd0 url0 ⟨0, 0, 100, 100⟩ 0 none = .ok wd0 :=
  (drawImageAlpha_alpha_zero_noop cacheR wd0 url0 img0 0 0 rfl).1

/-- C9: the diagonal gradient parameter used by drawGradient depends on a
pixel only through the sum of its offsets from the top-left corner, for
every rectangle whatever its aspect ratio, so the gradient axis is the
fixed 45-degree direction; on a non-square rectangle it differs from the
corner-to-corner diagonal reading at an explicit pixel. -/
theorem drawGradient_diagonal_fixed_angle :
    (∀ (r : Rect) (p q : Pt),
        p.x - r.x + (p.y - r.y) = q.x - r.x + (q.y - r.y) →
        gradParam .diagonal r p = gradParam .diagonal r q) ∧
    gradParam .diagonal ⟨0, 0, 2, 1⟩ ⟨1, 0⟩ ≠ cornerDiagParam ⟨0, 0, 2, 1⟩ ⟨1, 0⟩ := by
  constructor
  · intro r p q hpq
    unfold gradParam
    rw [hpq]
  · norm_num [gradParam, cornerDiagParam]

/-- Witness for C9: two pixels of equal offset sum inside a non-square
rectangle receive the same diagonal gradient parameter. -/
theorem drawGradient_diagonal_fixed_angle_w :
    gradParam .diagonal ⟨0, 0, 5, 3⟩ ⟨1, 2⟩ = gradParam .diagonal ⟨0, 0, 5, 3⟩ ⟨2, 1⟩ :=
  drawGradient_diagonal_fixed_angle.1 ⟨0, 0, 5, 3⟩ ⟨1, 2⟩ ⟨2, 1⟩ (by decide)

/-- C10: getCanvasWidth, getCanvasHeight and getCanvasSize take no widget
identifier, report the single implicit canvas whatever the widget registry
holds, always return plain values consistent with each other, while a
widget-addressed operation such as getPixel fails with UnknownWidget on an
unresolvable identifier. -/
theorem canvas_queries_widget_free :
    (∀ (s : EngineState) (f : String → Option WidgetData),
        getCanvasWidth { s with widgets := f } = getCanvasWidth s ∧
        getCanvasHeight { s with widgets := f } = getCanvasHeight s ∧
        getCanvasSize { s with widgets := f } = getCanvasSize s) ∧
    (∀ s : EngineState, getCanvasSize s = ⟨getCanvasWidth s, getCanvasHeight s⟩) ∧
    (∀ (s : EngineState) (wid : String) (p : Pt), s.widgets wid = none →
        getPixel s wid p = .error .UnknownWidget) := by
  refine ⟨fun s f => ⟨rfl, rfl, rfl⟩, fun s => rfl, fun s wid p h => ?_⟩
  unfold getPixel
  rw [h]

/-- Witness for C10: the canvas-size queries agree on a concrete engine and
getPixel on an unregistered identifier reports UnknownWidget. -/
theorem canvas_queries_widget_free_w :
    getPixel s0 url0 ⟨0, 0⟩ = .error .UnknownWidget :=
  canvas_queries_widget_free.2.2 s0 url0 ⟨0, 0⟩ rfl

end MudForge
